import Mathlib

/-!
Shallow embedding of `src/telegram_bot.py` (the sortik Telegram bot).

The source file interleaves two revisions of itself (it contains diff hunk
markers and both the old and the new line of each changed statement); the
definitions below follow the newest revision at every site the claims cite,
and the one superseded construct a claim cites directly
(`all_categories = {**custom_categories, **default_categories}`) is embedded
separately under its own name.

Modelling conventions:
  * sqlite3 tables `links` and `custom_categories` are association lists of
    rows; `INSERT OR REPLACE` deletes the rows with the same primary key and
    appends the fresh row (which is also where SQLite's rowid order puts it).
  * `datetime.now().isoformat()` timestamps are `Nat`s supplied by the caller,
    strictly for ordering.
  * the sqlite3 connection either works or raises; the Boolean `dbOk`
    parameter models that.  The Python `try/except` around every store
    operation catches the exception and only `print`s it, so the Lean
    functions return the (possibly unchanged) database and nothing else —
    exactly like the source, no error value reaches the caller.
  * Telegram messages sent to the user are modelled as a `Directive` tag
    (which message/keyboard the handler replies with); message deletion and
    `context.user_data['last_url_message']` bookkeeping are transport and are
    not part of the data model.
  * `context.user_data` is the `Ctx` structure: the fields the handlers read
    and write (`category_add_mode`, `category_add_trigger`, `new_category`,
    `current_url`).
-/

/-- A row of the sqlite `links` table:
`(user_id, url, category, color, timestamp)` with `PRIMARY KEY (user_id, url)`
(`src/telegram_bot.py`, `init_db`).  `category`/`color` are nullable. -/
structure LinkRow where
  user_id : Nat
  url : String
  category : Option String
  color : Option String
  timestamp : Nat
  deriving DecidableEq, Repr

/-- A row of the sqlite `custom_categories` table:
`(user_id, category, color, timestamp)` with `PRIMARY KEY (user_id, category)`
(`src/telegram_bot.py`, `init_db`). -/
structure CatRow where
  user_id : Nat
  category : String
  color : String
  timestamp : Nat
  deriving DecidableEq, Repr

/-- The persistent store `web_cache.db`: both tables, rows kept in rowid
(insertion) order. -/
structure Db where
  links : List LinkRow
  cats : List CatRow
  deriving DecidableEq, Repr

/-- Primary-key match on the `links` table. -/
def linkKey (uid : Nat) (url : String) (r : LinkRow) : Bool :=
  r.user_id == uid && r.url == url

/-- Primary-key match on the `custom_categories` table. -/
def catKey (uid : Nat) (name : String) (r : CatRow) : Bool :=
  r.user_id == uid && r.category == name

/-- Function `save_link` (`src/telegram_bot.py` lines 92-108):
`INSERT OR REPLACE INTO links (user_id, url, category, color, timestamp)`.
The whole row is replaced — there is no column-wise update.
On a store failure (`dbOk = false`) the `except` clause just prints; the
database is unchanged and the function still returns normally. -/
def save_link (dbOk : Bool) (uid : Nat) (url : String)
    (category color : Option String) (ts : Nat) (db : Db) : Db :=
  if dbOk then
    { db with links := db.links.filter (fun r => !linkKey uid url r)
        ++ [⟨uid, url, category, color, ts⟩] }
  else db

/-- Function `save_custom_category` (`src/telegram_bot.py` lines 110-123):
`INSERT OR REPLACE INTO custom_categories (user_id, category, color,
timestamp)`.  No validation of `category` is performed.  On a store failure
the `except` clause just prints; the database is unchanged and the function
still returns normally. -/
def save_custom_category (dbOk : Bool) (uid : Nat) (category color : String)
    (ts : Nat) (db : Db) : Db :=
  if dbOk then
    { db with cats := db.cats.filter (fun r => !catKey uid category r)
        ++ [⟨uid, category, color, ts⟩] }
  else db

/-- Stable insertion into a timestamp-sorted list (helper for the SQL
`ORDER BY timestamp` of `load_links`). -/
def insertByTs (r : LinkRow) : List LinkRow → List LinkRow
  | [] => [r]
  | x :: xs => if r.timestamp < x.timestamp then r :: x :: xs
      else x :: insertByTs r xs

/-- Stable sort by ascending timestamp (the SQL `ORDER BY timestamp` of
`load_links`; ISO timestamps sort chronologically). -/
def sortByTs (l : List LinkRow) : List LinkRow :=
  l.foldr insertByTs []

/-- Function `load_links` (`src/telegram_bot.py` lines 53-76):
`SELECT url, category, color, timestamp FROM links WHERE user_id = ?
ORDER BY timestamp`.  On a store failure the `except` clause prints and
returns the empty list. -/
def load_links (dbOk : Bool) (uid : Nat) (db : Db) : List LinkRow :=
  if dbOk then sortByTs (db.links.filter (fun r => r.user_id == uid))
  else []

/-- Function `load_custom_categories` (`src/telegram_bot.py` lines 78-89):
`SELECT category, color FROM custom_categories WHERE user_id = ?` (no ORDER
BY: rowid order), returned as the dict `{category: color}`; keys are unique
by primary key.  On a store failure returns the empty dict. -/
def load_custom_categories (dbOk : Bool) (uid : Nat) (db : Db) :
    List (String × String) :=
  if dbOk then
    (db.cats.filter (fun r => r.user_id == uid)).map
      (fun r => (r.category, r.color))
  else []

/-- The process-wide default category dict of `handle_url` /
`handle_callback` (`src/telegram_bot.py` lines 184-190). -/
def default_categories : List (String × String) :=
  [("News", "blue"), ("Tech", "green"), ("Fun", "yellow"),
   ("Sport", "red"), ("Music", "purple")]

/-- The color keyboard list of `handle_message`
(`src/telegram_bot.py` line 284). -/
def colors : List String :=
  ["red", "blue", "green", "yellow", "purple", "pink", "indigo", "gray"]

/-- Python dict item insertion: if the key is present its value is updated in
place (position kept), otherwise the pair is appended. -/
def dictInsert (d : List (String × String)) (k v : String) :
    List (String × String) :=
  if d.any (fun p => p.1 == k) then
    d.map (fun p => if p.1 == k then (k, v) else p)
  else d ++ [(k, v)]

/-- Python `{**a, **b}`: start from `a`, insert every item of `b` in order.
On a key collision the value from `b` (the *second* dict) wins, while the
key keeps the position it had in `a`. -/
def dictMerge (a b : List (String × String)) : List (String × String) :=
  b.foldl (fun d p => dictInsert d p.1 p.2) a

/-- The merged category dict
`all_categories = {**custom_categories, **default_categories}`
(`src/telegram_bot.py` lines 197 and 341). -/
def all_categories (custom_categories : List (String × String)) :
    List (String × String) :=
  dictMerge custom_categories default_categories

/-- Dict lookup (Python `d[k]` / first matching entry). -/
def lookupDict (d : List (String × String)) (k : String) : Option String :=
  (d.find? (fun p => p.1 == k)).map (fun p => p.2)

/-- Lookup of the `links` row for a primary key. -/
def lookupLink (db : Db) (uid : Nat) (url : String) : Option LinkRow :=
  db.links.find? (linkKey uid url)

/-- Lookup of the color stored for a `custom_categories` primary key. -/
def lookupCat (db : Db) (uid : Nat) (name : String) : Option String :=
  (db.cats.find? (catKey uid name)).map (fun r => r.color)

/-! ### URL extraction: `re.findall(URL_REGEX, message_text)` with
`URL_REGEX = https?://[^\s<>"]+|www\.[^\s<>"]+` -/

/-- A character allowed inside a URL body: anything but whitespace, `<`,
`>`, `"` (the regex character class). -/
def urlBodyChar (c : Char) : Bool :=
  !(c.isWhitespace || c == '<' || c == '>' || c == '"')

/-- Try to match the URL regex at the head of the character list; on success
return the match and the remaining characters.  `https?://` requires the
literal scheme then at least one body character; `www\.` likewise. -/
def tryMatchUrl (cs : List Char) : Option (List Char × List Char) :=
  let tryAt : List Char → Option (List Char × List Char) := fun pat =>
    if cs.take pat.length = pat then
      let after := cs.drop pat.length
      let body := after.takeWhile urlBodyChar
      if body.isEmpty then none
      else some (pat ++ body, after.dropWhile urlBodyChar)
    else none
  ((tryAt "https://".toList).orElse fun _ =>
    (tryAt "http://".toList).orElse fun _ =>
      tryAt "www.".toList)

/-- Left-to-right non-overlapping scan (the semantics of `re.findall`),
with fuel bounded by the string length. -/
def findUrlsAux : Nat → List Char → List String
  | 0, _ => []
  | _ + 1, [] => []
  | fuel + 1, c :: cs =>
    match tryMatchUrl (c :: cs) with
    | some (m, rest) => String.mk m :: findUrlsAux fuel rest
    | none => findUrlsAux fuel cs

/-- The call `re.findall(URL_REGEX, text)` (`src/telegram_bot.py` line 169). -/
def findUrls (text : String) : List String :=
  findUrlsAux text.length text.toList

/-! ### Inline keyboards and render directives -/

/-- What a button does: carry `callback_data` or open a web app URL. -/
inductive BtnAction where
  | callback (data : String)
  | webApp (url : String)
  deriving DecidableEq, Repr

/-- An inline keyboard button. -/
structure Button where
  label : String
  action : BtnAction
  deriving DecidableEq, Repr

/-- The reply a handler sends (the render directive the front-end gets);
one constructor per distinct `reply_text` site of the source. -/
inductive Directive where
  /-- Reply "Пожалуйста, отправьте корректную ссылку." — no URL found. -/
  | replyNoUrl
  /-- Reply "Ссылка: {url} Выберите категорию для сорта:" with the picker rows. -/
  | picker (url : String) (rows : List (List Button))
  /-- Reply "Ошибка: URL или категория слишком длинные." — a `callback_data`
  exceeded 64 UTF-8 bytes and the handler returned early. -/
  | errorTooLong
  /-- Reply "Назовите новую категорию:" -/
  | promptName
  /-- Reply asking to pick a color for the named category, with the color keyboard. -/
  | colorPicker (name : String)
  /-- Reply "Кеш пуст." -/
  | emptyCache
  /-- Reply "Открыть приложение с кешом:" with the web-app button. -/
  | openApp (url : String)
  /-- No reply at all (e.g. the `color` branch with missing pending data). -/
  | silent
  deriving DecidableEq, Repr

/-- The `assign` callback payload `f"assign|{url}|{category}|{color}"`. -/
def assignData (url category color : String) : String :=
  "assign|" ++ url ++ "|" ++ category ++ "|" ++ color

/-- One single-button row per custom category, each guarded by the 64-byte
`callback_data` check; the first failing check makes the handler reply with
the length error and return (`src/telegram_bot.py` lines 209-215). -/
def customButtons (url : String) :
    List (String × String) → Except Unit (List (List Button))
  | [] => .ok []
  | (category, color) :: rest =>
    let cd := assignData url category color
    if cd.utf8ByteSize > 64 then .error ()
    else
      match customButtons url rest with
      | .error e => .error e
      | .ok rows => .ok ([⟨category, .callback cd⟩] :: rows)

/-- The default-category buttons, each guarded by the same 64-byte check
(`src/telegram_bot.py` lines 218-225), before being grouped into rows. -/
def defaultButtonsFlat (url : String) :
    List (String × String) → Except Unit (List Button)
  | [] => .ok []
  | (category, color) :: rest =>
    let cd := assignData url category color
    if cd.utf8ByteSize > 64 then .error ()
    else
      match defaultButtonsFlat url rest with
      | .error e => .error e
      | .ok bs => .ok (⟨category, .callback cd⟩ :: bs)

/-- The `idx % 3 == 0 or idx == len` row flushing of the default loop:
rows of three, last row possibly shorter. -/
def chunk3 : List Button → List (List Button)
  | [] => []
  | a :: b :: c :: rest => [a, b, c] :: chunk3 rest
  | rest => [rest]

/-- The category picker keyboard built by `handle_url` and by the `color` /
`assign` branches of `handle_callback` (the block is duplicated verbatim in
the source): the "+" row, one row per custom category, then the defaults in
rows of three; any over-long `callback_data` aborts with the length error. -/
def buildPicker (url : String) (custom_categories : List (String × String)) :
    Except Unit (List (List Button)) :=
  match customButtons url custom_categories with
  | .error e => .error e
  | .ok customRows =>
    match defaultButtonsFlat url default_categories with
    | .error e => .error e
    | .ok defaultFlat =>
      .ok ([⟨"+", .callback ("add_category|" ++ url)⟩]
        :: customRows ++ chunk3 defaultFlat)

/-- Splitting a character list at every `|` (the semantics of Python
`str.split('|')`, used by `handle_callback` on `query.data`, and of the
consumer-side field splitting of the deep-link payload described in spec
§6 — the consumer itself lives in the external mini-application). -/
def splitPipe : List Char → List (List Char)
  | [] => [[]]
  | c :: cs =>
    match splitPipe cs with
    | [] => [[]]
    | g :: gs => if c = '|' then [] :: g :: gs else (c :: g) :: gs

/-- Python `query.data.split('|')` on a `String`. -/
def splitBar (s : String) : List String :=
  (splitPipe s.data).map String.mk

/-- Returns `true` iff no character of the list is the separator `|`. -/
def noPipe (s : List Char) : Bool :=
  s.all (fun c => c != '|')

/-! ### Handlers -/

/-- The `context.user_data` fields the handlers use. -/
structure Ctx where
  category_add_mode : Bool
  category_add_trigger : Option String
  new_category : Option String
  current_url : Option String
  deriving DecidableEq, Repr

/-- The fresh `context.user_data` of a new chat. -/
def Ctx.initial : Ctx := ⟨false, none, none, none⟩

/-- Python truthiness of an optional string (`if new_category and
shared_url:`): `None` and the empty string are falsy. -/
def truthy : Option String → Bool
  | none => false
  | some s => !s.isEmpty

/-- Handler `handle_url` (`src/telegram_bot.py` lines 166-235): extract the URLs; if
none, reply with the URL prompt; otherwise `save_link(user_id, shared_url)`
— saving the link *without category and color* (source comment) — and then
build the category picker; an over-long `callback_data` makes it reply with
the length error and return, after the link was already saved. -/
def handle_url (uid : Nat) (text : String) (ts : Nat) (dbOk : Bool)
    (db : Db) : Db × Directive :=
  match findUrls text with
  | [] => (db, .replyNoUrl)
  | url :: _ =>
    let db1 := save_link dbOk uid url none none ts db
    match buildPicker url (load_custom_categories dbOk uid db1) with
    | .error _ => (db1, .errorTooLong)
    | .ok rows => (db1, .picker url rows)

/-- Python `str.strip()`: drop leading and trailing whitespace
(structural recursion so that it evaluates by kernel reduction). -/
def stripStr (s : String) : String :=
  String.mk (((s.data.dropWhile Char.isWhitespace).reverse.dropWhile
    Char.isWhitespace).reverse)

/-- Handler `handle_message` (`src/telegram_bot.py` lines 279-299): if
`category_add_mode` is set, the text — whatever it is — is stripped and
stored as `new_category`, the color keyboard is shown and the mode flag is
cleared; otherwise the message is passed to `handle_url`. -/
def handle_message (uid : Nat) (text : String) (ts : Nat) (dbOk : Bool)
    (ctx : Ctx) (db : Db) : Ctx × Db × Directive :=
  if ctx.category_add_mode then
    let new_category := stripStr text
    ({ ctx with
        new_category := some new_category
        category_add_mode := false }, db, .colorPicker new_category)
  else
    (ctx, handle_url uid text ts dbOk db)

/-- Handler `category_add` — the `/categoryadd` command (`src/telegram_bot.py`
lines 270-277): sets `category_add_mode` and the trigger tag and asks for a
name.  It does not touch `current_url`: the command flow never records a
pending URL. -/
def category_add (ctx : Ctx) : Ctx × Directive :=
  ({ ctx with
      category_add_mode := true
      category_add_trigger := some "command" }, .promptName)

/-- Handler `handle_callback` (`src/telegram_bot.py` lines 301-424): dispatch on
`query.data.split('|')`.
`add_category|url` stores the pending URL and asks for a name;
`color|c` runs only if both `new_category` and `current_url` are truthy —
otherwise *nothing at all* happens — and on success saves the custom
category, saves the link with it, and re-shows the picker;
`assign|url|cat|c` saves the link with the chosen category and re-shows the
picker.  (A malformed payload raises in Python and produces no reply;
modelled as `silent`.) -/
def handle_callback (uid : Nat) (payload : String) (ts : Nat) (dbOk : Bool)
    (ctx : Ctx) (db : Db) : Ctx × Db × Directive :=
  match splitBar payload with
  | "add_category" :: url :: _ =>
    ({ ctx with
        category_add_mode := true
        category_add_trigger := some "button"
        current_url := some url }, db, .promptName)
  | "color" :: color :: _ =>
    if truthy ctx.new_category && truthy ctx.current_url then
      let name := ctx.new_category.getD ""
      let url := ctx.current_url.getD ""
      let db1 := save_custom_category dbOk uid name color ts db
      let db2 := save_link dbOk uid url (some name) (some color) ts db1
      match buildPicker url (load_custom_categories dbOk uid db2) with
      | .error _ => (ctx, db2, .errorTooLong)
      | .ok rows => (ctx, db2, .picker url rows)
    else (ctx, db, .silent)
  | "assign" :: url :: category :: color :: _ =>
    let db1 := save_link dbOk uid url (some category) (some color) ts db
    match buildPicker url (load_custom_categories dbOk uid db1) with
    | .error _ => (ctx, db1, .errorTooLong)
    | .ok rows => (ctx, db1, .picker url rows)
  | _ => (ctx, db, .silent)

/-! ### Bulk export (`view_cache`) -/

/-- One record of the upload payload:
`f"{url}|{category}|{color}"` with `"Uncategorized"` / `"gray"` defaults
(`src/telegram_bot.py` lines 257-261).  The raw field values are joined;
no per-field encoding happens here. -/
def uploadRecord (l : LinkRow) : String :=
  l.url ++ "|" ++ l.category.getD "Uncategorized" ++ "|" ++ l.color.getD "gray"

/-- The string `upload_string = "|||".join(upload_data)` (`src/telegram_bot.py`
line 262). -/
def upload_string (links : List LinkRow) : String :=
  String.intercalate "|||" (links.map uploadRecord)

/-- Hex digit as produced by `urllib.parse.quote` (uppercase). -/
def hexDigit (n : Nat) : Char :=
  if n < 10 then Char.ofNat (48 + n) else Char.ofNat (55 + n)

/-- A byte `urllib.parse.quote(s, safe='')` leaves unencoded:
ASCII alphanumerics and `_ . - ~`. -/
def quoteSafeByte (b : Nat) : Bool :=
  (65 ≤ b && b ≤ 90) || (97 ≤ b && b ≤ 122) || (48 ≤ b && b ≤ 57) ||
    b == 45 || b == 46 || b == 95 || b == 126

/-- The UTF-8 encoding of one code point, as byte values. -/
def utf8Bytes (c : Char) : List Nat :=
  let n := c.toNat
  if n < 128 then [n]
  else if n < 2048 then [192 + n / 64, 128 + n % 64]
  else if n < 65536 then
    [224 + n / 4096, 128 + (n / 64) % 64, 128 + n % 64]
  else
    [240 + n / 262144, 128 + (n / 4096) % 64, 128 + (n / 64) % 64,
      128 + n % 64]

/-- Python `urllib.parse.quote(s, safe='')`: percent-encode every non-safe byte of
the UTF-8 encoding. -/
def quote (s : String) : String :=
  String.mk (s.data.foldr (fun c acc =>
    (utf8Bytes c).foldr (fun n acc2 =>
      if quoteSafeByte n then Char.ofNat n :: acc2
      else '%' :: hexDigit (n / 16) :: hexDigit (n % 16) :: acc2) acc) [])

/-- The deep link `app_url = f"https://sortik.app/?upload={urllib.parse.quote(upload_string,
safe='')}"` (`src/telegram_bot.py` line 263): the *joined* string is
percent-encoded once, as a whole. -/
def app_url (links : List LinkRow) : String :=
  "https://sortik.app/?upload=" ++ quote (upload_string links)

/-- Handler `view_cache` (`src/telegram_bot.py` lines 238-268): load the user's
links; if none, reply "Кеш пуст."; otherwise reply with the web-app button
opening `app_url`. -/
def view_cache (uid : Nat) (dbOk : Bool) (db : Db) : Directive :=
  let links := load_links dbOk uid db
  if links.isEmpty then .emptyCache else .openApp (app_url links)


/-! ## Store lemmas: `INSERT OR REPLACE` on a primary key -/

/-- After deleting every key match and appending the fresh row, looking the
key up finds exactly the fresh row. -/
theorem find?_replaced {α : Type} (p : α → Bool) (l : List α) (r : α)
    (hr : p r = true) :
    ((l.filter (fun x => !p x)) ++ [r]).find? p = some r := by
  induction l with
  | nil => simp [List.find?, hr]
  | cons a l ih =>
    by_cases h : p a
    · simp only [List.filter_cons, h, Bool.not_true, Bool.false_eq_true,
        if_false]
      exact ih
    · simp only [List.filter_cons, h, Bool.not_false, if_true,
        List.cons_append]
      rw [List.find?_cons_of_neg _ h]
      exact ih

/-- Deleting every key match leaves no key match. -/
theorem countP_filter_not {α : Type} (p : α → Bool) (l : List α) :
    (l.filter (fun x => !p x)).countP p = 0 := by
  induction l with
  | nil => simp
  | cons a l ih => by_cases h : p a <;>
      simp [List.filter_cons, h, List.countP_cons, ih]

/-- Delete-then-append leaves exactly one key match. -/
theorem countP_replaced {α : Type} (p : α → Bool) (l : List α) (r : α)
    (hr : p r = true) :
    ((l.filter (fun x => !p x)) ++ [r]).countP p = 1 := by
  simp [List.countP_append, countP_filter_not, List.countP_cons, hr]

/-- Lemma: `save_link` stores exactly the row it was given for its key. -/
theorem lookupLink_save (uid : Nat) (url : String)
    (category color : Option String) (ts : Nat) (db : Db) :
    lookupLink (save_link true uid url category color ts db) uid url
      = some ⟨uid, url, category, color, ts⟩ := by
  have h : linkKey uid url ⟨uid, url, category, color, ts⟩ = true := by
    simp [linkKey]
  simpa [lookupLink, save_link] using
    find?_replaced (linkKey uid url) db.links _ h

/-- Lemma: `save_link` leaves exactly one row for its key, whatever was there. -/
theorem countLink_save (uid : Nat) (url : String)
    (category color : Option String) (ts : Nat) (db : Db) :
    ((save_link true uid url category color ts db).links.countP
      (linkKey uid url)) = 1 := by
  have h : linkKey uid url ⟨uid, url, category, color, ts⟩ = true := by
    simp [linkKey]
  simpa [save_link] using
    countP_replaced (linkKey uid url) db.links _ h

/-- Lemma: `save_custom_category` stores exactly the color it was given for its
key. -/
theorem lookupCat_save (uid : Nat) (category color : String) (ts : Nat)
    (db : Db) :
    lookupCat (save_custom_category true uid category color ts db)
      uid category = some color := by
  have h : catKey uid category ⟨uid, category, color, ts⟩ = true := by
    simp [catKey]
  simp only [lookupCat, save_custom_category, if_true]
  rw [find?_replaced (catKey uid category) db.cats _ h]
  rfl

/-- Whatever `handle_url` replies, its database effect on a message whose
first URL is `url` is exactly the `save_link` call with no category and no
color. -/
theorem handle_url_db (uid : Nat) (text url : String) (ts : Nat) (db : Db)
    (hu : (findUrls text).head? = some url) :
    (handle_url uid text ts true db).1 = save_link true uid url none none ts db := by
  obtain ⟨rest, hfu⟩ : ∃ rest, findUrls text = url :: rest := by
    cases h : findUrls text with
    | nil => rw [h] at hu; cases hu
    | cons a l =>
      rw [h] at hu
      simp only [List.head?, Option.some.injEq] at hu
      exact ⟨l, by rw [hu]⟩
  unfold handle_url
  rw [hfu]
  split
  · next heq => simp at heq
  · next u tail heq =>
    injection heq with h1 h2
    subst h1
    cases hbp : buildPicker url (load_custom_categories true uid
        (save_link true uid url none none ts db)) <;> simp [hbp]

/-! ## Claim C1 — content refresh vs. category preservation -/

/-- Claim C1 counterexample: a link already categorized as Tech/green is
re-submitted (`handle_url` on a message containing the same URL).  The
stored record is wholly replaced: category and color become `none`.  The
claim — that a content refresh for an existing key preserves the
category/color fields — is false on the code. -/
theorem resubmit_wipes_category_cex :
    lookupLink ⟨[⟨1, "http://a", some "Tech", some "green", 0⟩], []⟩ 1 "http://a"
      = some ⟨1, "http://a", some "Tech", some "green", 0⟩ ∧
    (handle_url 1 "check http://a" 5 true
        ⟨[⟨1, "http://a", some "Tech", some "green", 0⟩], []⟩).1.links
      = [⟨1, "http://a", none, none, 5⟩] := by
  constructor
  · decide
  · decide

/-- Claim C1 (amended): storing a submitted URL for a `(user, url)` key
replaces the whole record; the category and color of the resulting row are
always `none`, whatever the prior record held — a refresh silently
uncategorizes the link. -/
theorem resubmit_resets_category (uid : Nat) (text url : String) (ts : Nat)
    (db : Db) (hu : (findUrls text).head? = some url) :
    lookupLink ((handle_url uid text ts true db).1) uid url
      = some ⟨uid, url, none, none, ts⟩ := by
  rw [handle_url_db uid text url ts db hu]
  exact lookupLink_save uid url none none ts db

/-- Claim C1 witness: the amended theorem applied at a concrete message and
database. -/
theorem resubmit_resets_category_witness :
    lookupLink ((handle_url 1 "see http://a" 5 true
        ⟨[⟨1, "http://a", some "Tech", some "green", 0⟩], []⟩).1) 1 "http://a"
      = some ⟨1, "http://a", none, none, 5⟩ :=
  resubmit_resets_category 1 "see http://a" "http://a" 5
    ⟨[⟨1, "http://a", some "Tech", some "green", 0⟩], []⟩ (by decide)

/-! ## Claim C8 — idempotent upsert on the `(user_id, url)` primary key -/

/-- One `save_link` fold step and its effect on the key count and lookup. -/
theorem saveFold_spec (uid : Nat) (url : String) (t0 : Nat) (rest : List Nat)
    (db : Db) :
    ((rest.foldl (fun d t => save_link true uid url none none t d)
        (save_link true uid url none none t0 db)).links.countP
      (linkKey uid url) = 1) ∧
    lookupLink (rest.foldl (fun d t => save_link true uid url none none t d)
        (save_link true uid url none none t0 db)) uid url
      = some ⟨uid, url, none, none, rest.foldl (fun _ t => t) t0⟩ := by
  induction rest generalizing t0 db with
  | nil =>
    exact ⟨countLink_save uid url none none t0 db,
      lookupLink_save uid url none none t0 db⟩
  | cons t ts ih =>
    simpa [List.foldl_cons] using
      ih t (save_link true uid url none none t0 db)

/-- Claim C8: any nonempty sequence of `UrlSubmitted` events for the same
URL (each handled by `handle_url`, which performs the
`INSERT OR REPLACE`) leaves exactly one `links` row for the `(user, url)`
key, and that row is the last write: category/color `none` and the last
event's timestamp. -/
theorem repeated_submit_one_row (uid : Nat) (text url : String)
    (hu : (findUrls text).head? = some url) (t0 : Nat) (rest : List Nat)
    (db : Db) :
    ((rest.foldl (fun d t => (handle_url uid text t true d).1)
        ((handle_url uid text t0 true db).1)).links.countP
      (linkKey uid url) = 1) ∧
    lookupLink (rest.foldl (fun d t => (handle_url uid text t true d).1)
        ((handle_url uid text t0 true db).1)) uid url
      = some ⟨uid, url, none, none, rest.foldl (fun _ t => t) t0⟩ := by
  have hstep : (fun (d : Db) (t : Nat) => (handle_url uid text t true d).1)
      = fun (d : Db) (t : Nat) => save_link true uid url none none t d := by
    funext d t
    exact handle_url_db uid text url t d hu
  rw [hstep, handle_url_db uid text url t0 db hu]
  exact saveFold_spec uid url t0 rest db

/-- Claim C8 witness: three submissions of the same URL leave one row with
the last timestamp. -/
theorem repeated_submit_one_row_witness :
    (([1, 2].foldl (fun d t => (handle_url 7 "http://a" t true d).1)
        ((handle_url 7 "http://a" 0 true ⟨[], []⟩).1)).links.countP
      (linkKey 7 "http://a") = 1) ∧
    lookupLink ([1, 2].foldl (fun d t => (handle_url 7 "http://a" t true d).1)
        ((handle_url 7 "http://a" 0 true ⟨[], []⟩).1)) 7 "http://a"
      = some ⟨7, "http://a", none, none, 2⟩ :=
  repeated_submit_one_row 7 "http://a" "http://a" (by decide) 0 [1, 2] ⟨[], []⟩

/-! ## Claim C9 — the link write precedes the 64-byte picker validation -/

/-- Claim C9: when `handle_url` aborts with the too-long `callback_data`
error, the link row has already been written: the resulting store is
exactly the store after the `save_link` call, which replaced any prior
record for the key with an uncategorized row — the error path does not
undo the write. -/
theorem errorTooLong_keeps_write (uid : Nat) (text url : String) (ts : Nat)
    (db : Db) (hu : (findUrls text).head? = some url)
    (herr : (handle_url uid text ts true db).2 = Directive.errorTooLong) :
    (handle_url uid text ts true db).1 = save_link true uid url none none ts db ∧
    lookupLink ((handle_url uid text ts true db).1) uid url
      = some ⟨uid, url, none, none, ts⟩ := by
  refine ⟨handle_url_db uid text url ts db hu, ?_⟩
  rw [handle_url_db uid text url ts db hu]
  exact lookupLink_save uid url none none ts db

/-- Claim C9 witness: a stored custom category long enough to push the
`assign` payload over 64 UTF-8 bytes makes `handle_url` reply with the
length error, while the uncategorized link row is kept. -/
theorem errorTooLong_keeps_write_witness :
    ((handle_url 1 "http://a" 5 true
        ⟨[], [⟨1, "AAAAAAAAAAAAAAAAAAAAAAAAAAAAAAAAAAAAAAAAAAAAAAAAAA",
          "red", 0⟩]⟩).2 = Directive.errorTooLong) ∧
    lookupLink ((handle_url 1 "http://a" 5 true
        ⟨[], [⟨1, "AAAAAAAAAAAAAAAAAAAAAAAAAAAAAAAAAAAAAAAAAAAAAAAAAA",
          "red", 0⟩]⟩).1) 1 "http://a"
      = some ⟨1, "http://a", none, none, 5⟩ :=
  ⟨by decide,
    (errorTooLong_keeps_write 1 "http://a" "http://a" 5
      ⟨[], [⟨1, "AAAAAAAAAAAAAAAAAAAAAAAAAAAAAAAAAAAAAAAAAAAAAAAAAA",
        "red", 0⟩]⟩ (by decide) (by decide)).2⟩

/-! ## Claims C3, C4, C7 — `handle_message` and the category-name state -/

/-- Lemma: `handle_url` never replies with the color keyboard: its replies are the
URL prompt, the length error, or the category picker. -/
theorem handle_url_no_colorPicker (uid : Nat) (text : String) (ts : Nat)
    (dbOk : Bool) (db : Db) (n : String) :
    (handle_url uid text ts dbOk db).2 ≠ Directive.colorPicker n := by
  unfold handle_url
  split
  · simp
  · next u tail heq =>
    cases hbp : buildPicker u (load_custom_categories dbOk uid
        (save_link dbOk uid u none none ts db)) <;> simp [hbp]

/-- Claim C7: a text message is consumed as a new category name — the
handler strips it, stores it as the pending `new_category` and replies with
the color keyboard — if and only if `category_add_mode` is set (the
embodiment of the `AwaitingNewCategoryName` state); otherwise the text is
handed to `handle_url`, which re-prompts when it contains no URL and starts
the category picker when it does. -/
theorem text_is_category_name_iff (uid : Nat) (text : String) (ts : Nat)
    (dbOk : Bool) (ctx : Ctx) (db : Db) :
    ((handle_message uid text ts dbOk ctx db).2.2
        = Directive.colorPicker (stripStr text) ∧
      ((handle_message uid text ts dbOk ctx db).1).new_category
        = some (stripStr text))
      ↔ ctx.category_add_mode = true := by
  cases hmode : ctx.category_add_mode with
  | true => simp [handle_message, hmode]
  | false =>
    simp only [handle_message, hmode, if_false, Bool.false_eq_true,
      iff_false, not_and]
    intro hd
    exact absurd hd (handle_url_no_colorPicker uid text ts dbOk db (stripStr text))

/-- Claim C3 counterexample: in the `AwaitingNewCategoryName` state
(`category_add_mode` set), a message that is exactly a URL is *not*
processed as a URL submission: it is consumed as the pending category name,
the reply is the color keyboard (not the category picker), no link row is
written, and the other pending fields are kept rather than reset.  The
claim that a URL submission in any non-idle state
resets the session and behaves like the idle transition is false on the
code. -/
theorem url_consumed_as_name_cex :
    handle_message 1 "http://a.example" 3 true
        ⟨true, some "button", none, some "http://z"⟩ ⟨[], []⟩
      = (⟨false, some "button", some "http://a.example", some "http://z"⟩,
          ⟨[], []⟩, Directive.colorPicker "http://a.example") := by
  decide

/-- Claim C3 (amended): while `category_add_mode` is set, *any* text —
including one containing a URL — is consumed as the pending category name
(stripped, stored in `new_category`, color keyboard shown, mode flag
cleared) and the store is untouched; only when the flag is clear is the
text processed as a URL submission by `handle_url`.  The other pending
fields (`current_url`, `category_add_trigger`) are never reset. -/
theorem url_while_adding_category (uid : Nat) (text : String) (ts : Nat)
    (dbOk : Bool) (ctx : Ctx) (db : Db) :
    (ctx.category_add_mode = true →
      handle_message uid text ts dbOk ctx db
        = ({ ctx with
              category_add_mode := false
              new_category := some (stripStr text) }, db,
            Directive.colorPicker (stripStr text))) ∧
    (ctx.category_add_mode = false →
      handle_message uid text ts dbOk ctx db
        = (ctx, handle_url uid text ts dbOk db)) := by
  constructor <;> intro hmode <;> simp [handle_message, hmode]

/-- Claim C3 witness: the amended theorem applied to a URL-only message in
the awaiting-name state. -/
theorem url_while_adding_category_witness :
    handle_message 2 "http://b.example" 4 true
        ⟨true, some "command", none, none⟩ ⟨[], []⟩
      = (⟨false, some "command", some "http://b.example", none⟩, ⟨[], []⟩,
          Directive.colorPicker "http://b.example") :=
  (url_while_adding_category 2 "http://b.example" 4 true
    ⟨true, some "command", none, none⟩ ⟨[], []⟩).1 rfl

/-- Claim C4 counterexample: a message of blanks in the awaiting-name state
is accepted: the empty string becomes the pending category name and the
color keyboard is shown — no `InvalidCategory` error exists in the code.
`save_custom_category` likewise inserts a category whose name is empty. -/
theorem empty_name_accepted_cex :
    (handle_message 1 "   " 3 true ⟨true, some "button", none, some "http://z"⟩
        ⟨[], []⟩
      = (⟨false, some "button", some "", some "http://z"⟩, ⟨[], []⟩,
          Directive.colorPicker "")) ∧
    (save_custom_category true 1 "" "red" 9 ⟨[], []⟩).cats
      = [⟨1, "", "red", 9⟩] := by
  constructor
  · decide
  · decide

/-- Claim C4 (amended): neither transition validates the name.  A text that
strips to the empty string is recorded as the pending name `""` and the
session advances to the color choice, and `save_custom_category` stores an
empty-named category without complaint. -/
theorem empty_name_accepted (uid : Nat) (text : String) (ts : Nat)
    (dbOk : Bool) (ctx : Ctx) (db : Db)
    (hmode : ctx.category_add_mode = true) (htrim : stripStr text = "") :
    handle_message uid text ts dbOk ctx db
      = ({ ctx with
            category_add_mode := false
            new_category := some "" },
          db, Directive.colorPicker "") ∧
    ∀ (uid2 ts2 : Nat) (color : String) (db2 : Db),
      lookupCat (save_custom_category true uid2 "" color ts2 db2) uid2 ""
        = some color := by
  constructor
  · simp [handle_message, hmode, htrim]
  · intro uid2 ts2 color db2
    exact lookupCat_save uid2 "" color ts2 db2

/-- Claim C4 witness: the amended theorem applied to a blank message. -/
theorem empty_name_accepted_witness :
    handle_message 3 "   " 0 true ⟨true, none, none, none⟩ ⟨[], []⟩
      = (⟨false, none, some "", none⟩, ⟨[], []⟩, Directive.colorPicker "") :=
  (empty_name_accepted 3 "   " 0 true ⟨true, none, none, none⟩ ⟨[], []⟩
    rfl (by decide)).1

/-! ## Claim C2 — `{**custom_categories, **default_categories}` -/

/-- If no entry of `d` has key `k`, substituting at `k` finds nothing to
keep when filtering by `k`. -/
theorem filter_map_unreached (d : List (String × String)) (k v : String)
    (hk : ∀ x ∈ d, (x.1 == k) = false) :
    ((d.map (fun p => if p.1 == k then (k, v) else p)).filter
      (fun p => p.1 == k)) = [] := by
  induction d with
  | nil => simp
  | cons a d ih =>
    have ha := hk a (List.mem_cons_self a d)
    simp only [List.map_cons, ha, Bool.false_eq_true, if_false,
      List.filter_cons, ha]
    exact ih (fun x hx => hk x (List.mem_cons_of_mem a hx))

/-- Updating the (unique) entry with key `k` in place: filtering by `k`
afterwards yields exactly the fresh pair. -/
theorem filter_map_subst (d : List (String × String)) (k v : String)
    (hnd : (d.map Prod.fst).Nodup)
    (hany : d.any (fun p => p.1 == k) = true) :
    ((d.map (fun p => if p.1 == k then (k, v) else p)).filter
      (fun p => p.1 == k)) = [(k, v)] := by
  induction d with
  | nil => simp at hany
  | cons a d ih =>
    rw [List.map_cons, List.nodup_cons] at hnd
    obtain ⟨hna, hnd2⟩ := hnd
    by_cases h1 : (a.1 == k) = true
    · have hk : ∀ x ∈ d, (x.1 == k) = false := by
        intro x hx
        by_contra hxk
        have hxk2 : (x.1 == k) = true := by simpa using hxk
        have hx1 : x.1 = a.1 := (eq_of_beq hxk2).trans (eq_of_beq h1).symm
        exact hna (hx1 ▸ List.mem_map_of_mem Prod.fst hx)
      simp only [List.map_cons, h1, List.filter_cons, if_true,
        beq_self_eq_true]
      rw [filter_map_unreached d k v hk]
    · have h1f : (a.1 == k) = false := by simpa using h1
      have hany2 : d.any (fun p => p.1 == k) = true := by
        simpa [h1f] using hany
      simp only [List.map_cons, h1f, List.filter_cons, Bool.false_eq_true,
        if_false]
      exact ih hnd2 hany2

/-- Substituting at a key `k2` different from `k` does not change the
result of filtering by `k`. -/
theorem filter_map_ne (d : List (String × String)) (k k2 v : String)
    (hne : (k2 == k) = false) :
    ((d.map (fun p => if p.1 == k2 then (k2, v) else p)).filter
      (fun p => p.1 == k)) = d.filter (fun p => p.1 == k) := by
  induction d with
  | nil => simp
  | cons a d ih =>
    by_cases h2 : (a.1 == k2) = true
    · have hak : (a.1 == k) = false := by rw [eq_of_beq h2]; exact hne
      simp only [List.map_cons, h2, List.filter_cons, hak, hne,
        Bool.false_eq_true, if_false, if_true]
      exact ih
    · have h2f : (a.1 == k2) = false := by simpa using h2
      simp only [List.map_cons, h2f, List.filter_cons, ih,
        Bool.false_eq_true, if_false]

/-- Python dict update at key `k`: filtering the result by `k` yields
exactly the fresh pair, provided the dict had no duplicate keys. -/
theorem filter_dictInsert_self (d : List (String × String)) (k v : String)
    (hnd : (d.map Prod.fst).Nodup) :
    (dictInsert d k v).filter (fun p => p.1 == k) = [(k, v)] := by
  by_cases hany : d.any (fun p => p.1 == k) = true
  · rw [dictInsert, if_pos hany]
    exact filter_map_subst d k v hnd hany
  · rw [dictInsert, if_neg hany]
    rw [List.filter_append]
    have hall : ∀ x ∈ d, (x.1 == k) = false := by
      intro x hx
      by_contra hxk
      exact hany (List.any_eq_true.mpr ⟨x, hx, by simpa using hxk⟩)
    have : d.filter (fun p => p.1 == k) = [] :=
      List.filter_eq_nil_iff.mpr (by intro a ha; simp [hall a ha])
    simp [this]

/-- Python dict update at a key `k2 ≠ k` leaves the `k` entries alone. -/
theorem filter_dictInsert_ne (d : List (String × String)) (k k2 v : String)
    (hne : (k2 == k) = false) :
    (dictInsert d k2 v).filter (fun p => p.1 == k)
      = d.filter (fun p => p.1 == k) := by
  by_cases hany : d.any (fun p => p.1 == k2) = true
  · rw [dictInsert, if_pos hany]
    exact filter_map_ne d k k2 v hne
  · rw [dictInsert, if_neg hany]
    rw [List.filter_append]
    simp [hne]

/-- In-place substitution does not change the key list. -/
theorem keys_map_subst (d : List (String × String)) (k v : String) :
    ((d.map (fun p => if p.1 == k then (k, v) else p)).map Prod.fst)
      = d.map Prod.fst := by
  induction d with
  | nil => rfl
  | cons a d ih =>
    by_cases h2 : (a.1 == k) = true
    · simp only [List.map_cons, h2, if_true, ih]
      rw [eq_of_beq h2]
    · have h2f : (a.1 == k) = false := by simpa using h2
      simp only [List.map_cons, h2f, Bool.false_eq_true, if_false, ih]

/-- Python dict update keeps the keys duplicate-free. -/
theorem keys_dictInsert (d : List (String × String)) (k v : String)
    (hnd : (d.map Prod.fst).Nodup) :
    ((dictInsert d k v).map Prod.fst).Nodup := by
  by_cases hany : d.any (fun p => p.1 == k) = true
  · rw [dictInsert, if_pos hany, keys_map_subst]
    exact hnd
  · rw [dictInsert, if_neg hany, List.map_append]
    have hnk : ∀ x ∈ d.map Prod.fst, x ≠ k := by
      intro x hx hxk
      obtain ⟨p, hp, hpx⟩ := List.mem_map.mp hx
      exact hany (List.any_eq_true.mpr ⟨p, hp, by simp [hpx, hxk]⟩)
    simp only [List.map_cons, List.map_nil, List.nodup_append]
    exact ⟨hnd, List.nodup_singleton k,
      by intro a ha hb; simp at hb; exact hnk a ha hb⟩

/-- Claim C2 counterexample: a custom category `News/pink` merged by
`all_categories = {**custom_categories, **default_categories}` yields a
single `News` entry that carries the *default* color blue — the custom
color is lost, because in a Python dict merge the second dict (here the
defaults) wins on key collision.  The claim that the merged entry carries
the custom color is false on the code. -/
theorem custom_shadow_cex :
    (all_categories [("News", "pink")]).filter (fun p => p.1 == "News")
      = [("News", "blue")] ∧
    ("News", "pink") ∉ all_categories [("News", "pink")] := by
  constructor
  · decide
  · decide

/-- Claim C2 (amended): in the merged dict exactly one entry of a colliding
name appears (no duplication, the entry keeps the custom position), but it
carries the *default* category's color: defaults take precedence over
customs of the same name, for every custom list with duplicate-free names
(which the `custom_categories` primary key guarantees). -/
theorem default_overrides_custom (custom_categories : List (String × String))
    (hnd : (custom_categories.map Prod.fst).Nodup) (n c : String)
    (hm : (n, c) ∈ default_categories) :
    (all_categories custom_categories).filter (fun p => p.1 == n)
      = [(n, c)] := by
  simp only [all_categories, dictMerge, default_categories,
    List.foldl_cons, List.foldl_nil]
  fin_cases hm
  · rw [filter_dictInsert_ne _ _ _ _ (by decide),
      filter_dictInsert_ne _ _ _ _ (by decide),
      filter_dictInsert_ne _ _ _ _ (by decide),
      filter_dictInsert_ne _ _ _ _ (by decide)]
    exact filter_dictInsert_self _ "News" "blue" hnd
  · rw [filter_dictInsert_ne _ _ _ _ (by decide),
      filter_dictInsert_ne _ _ _ _ (by decide),
      filter_dictInsert_ne _ _ _ _ (by decide)]
    exact filter_dictInsert_self _ "Tech" "green"
      (keys_dictInsert _ _ _ hnd)
  · rw [filter_dictInsert_ne _ _ _ _ (by decide),
      filter_dictInsert_ne _ _ _ _ (by decide)]
    exact filter_dictInsert_self _ "Fun" "yellow"
      (keys_dictInsert _ _ _ (keys_dictInsert _ _ _ hnd))
  · rw [filter_dictInsert_ne _ _ _ _ (by decide)]
    exact filter_dictInsert_self _ "Sport" "red"
      (keys_dictInsert _ _ _ (keys_dictInsert _ _ _
        (keys_dictInsert _ _ _ hnd)))
  · exact filter_dictInsert_self _ "Music" "purple"
      (keys_dictInsert _ _ _ (keys_dictInsert _ _ _
        (keys_dictInsert _ _ _ (keys_dictInsert _ _ _ hnd))))

/-- Claim C2 witness: the amended theorem applied to the custom list
`[News/pink]` and the default `News/blue`. -/
theorem default_overrides_custom_witness :
    (all_categories [("News", "pink")]).filter (fun p => p.1 == "News")
      = [("News", "blue")] :=
  default_overrides_custom [("News", "pink")] (by decide) "News" "blue"
    (by decide)

/-! ## Claim C5 — store failures are swallowed, not reported -/

/-- Claim C5 counterexample: with the persistence layer down (every sqlite
operation raising), the `color` button press still replies with the normal
category-picker keyboard — indistinguishable from success — while neither
the custom category nor the link assignment was written.  The claim that a
store failure aborts the operation *and is reported upward* is false on the
code: the `except` clauses only print. -/
theorem store_failure_silent_cex :
    handle_callback 1 "color|red" 7 false
        ⟨false, none, some "Recipes", some "http://a"⟩ ⟨[], []⟩
      = (⟨false, none, some "Recipes", some "http://a"⟩, ⟨[], []⟩,
          Directive.picker "http://a"
            [[⟨"+", .callback "add_category|http://a"⟩],
             [⟨"News", .callback "assign|http://a|News|blue"⟩,
              ⟨"Tech", .callback "assign|http://a|Tech|green"⟩,
              ⟨"Fun", .callback "assign|http://a|Fun|yellow"⟩],
             [⟨"Sport", .callback "assign|http://a|Sport|red"⟩,
              ⟨"Music", .callback "assign|http://a|Music|purple"⟩]]) := by
  decide

/-- Claim C5 (amended): a persistence failure is caught inside the save
helpers and only logged.  The requested mutation is silently dropped (the
store is returned unchanged by every handler) and no error value or error
reply reaches the caller — the handlers continue on their success path. -/
theorem store_failure_silent (uid : Nat) (payload text : String) (ts : Nat)
    (ctx : Ctx) (db : Db) :
    (handle_callback uid payload ts false ctx db).2.1 = db ∧
    (handle_url uid text ts false db).1 = db ∧
    (∀ (url : String) (category color : Option String),
      save_link false uid url category color ts db = db) ∧
    (∀ (category color : String),
      save_custom_category false uid category color ts db = db) := by
  refine ⟨?_, ?_, fun url category color => rfl,
    fun category color => rfl⟩
  · unfold handle_callback
    split
    · rfl
    · split
      · simp only [save_link, save_custom_category, Bool.false_eq_true,
          if_false]
        split <;> rfl
      · rfl
    · simp only [save_link, Bool.false_eq_true, if_false]
      split <;> rfl
    · rfl
  · unfold handle_url
    split
    · rfl
    · simp only [save_link, Bool.false_eq_true, if_false]
      split <;> rfl

/-! ## Claim C6 — the deep-link payload is encoded as a whole -/

/-- Claim C6 counterexample: two different stores — one where the *URL*
contains a `|`, one where the *color* does — produce byte-identical
`/view_cache` deep links, because the raw fields are joined with `|` before
the single global percent-encoding.  A field containing `|` therefore
cannot be recovered by decoding and splitting, refuting the claim that
every field is percent-encoded independently before joining. -/
theorem export_ambiguous_cex :
    view_cache 1 true ⟨[⟨1, "http://a|B", some "c", some "d", 0⟩], []⟩
      = view_cache 1 true ⟨[⟨1, "http://a", some "B", some "c|d", 0⟩], []⟩ ∧
    (⟨1, "http://a|B", some "c", some "d", 0⟩ : LinkRow)
      ≠ ⟨1, "http://a", some "B", some "c|d", 0⟩ := by
  constructor
  · decide
  · decide

/-- One-step unfolding of `splitPipe` on a cons cell. -/
theorem splitPipe_cons (c : Char) (cs : List Char) :
    splitPipe (c :: cs)
      = match splitPipe cs with
        | [] => [[]]
        | g :: gs => if c = '|' then [] :: g :: gs else (c :: g) :: gs :=
  rfl

/-- Lemma: `splitPipe` never returns the empty list of groups. -/
theorem splitPipe_ne_nil (l : List Char) : splitPipe l ≠ [] := by
  cases l with
  | nil => simp [splitPipe]
  | cons c cs =>
    rw [splitPipe_cons]
    cases h : splitPipe cs with
    | nil => simp
    | cons g gs => by_cases hc : c = '|' <;> simp [hc]

/-- Splitting after a pipe-free block peels the block off as one field. -/
theorem splitPipe_append_pipe (xs rest : List Char)
    (hx : noPipe xs = true) :
    splitPipe (xs ++ '|' :: rest) = xs :: splitPipe rest := by
  induction xs with
  | nil =>
    rw [List.nil_append, splitPipe_cons]
    cases h : splitPipe rest with
    | nil => exact absurd h (splitPipe_ne_nil rest)
    | cons g gs => simp
  | cons a as ih =>
    simp only [noPipe, List.all_cons, Bool.and_eq_true] at hx
    obtain ⟨ha, has⟩ := hx
    have ha2 : ¬a = '|' := by simpa using ha
    rw [List.cons_append, splitPipe_cons, ih has]
    simp [ha2]

/-- A pipe-free block is one single field. -/
theorem splitPipe_noPipe (l : List Char) (h : noPipe l = true) :
    splitPipe l = [l] := by
  induction l with
  | nil => rfl
  | cons a as ih =>
    simp only [noPipe, List.all_cons, Bool.and_eq_true] at h
    obtain ⟨ha, has⟩ := h
    have ha2 : ¬a = '|' := by simpa using ha
    rw [splitPipe_cons, ih has]
    simp [ha2]

/-- Claim C6 (amended): fields are joined raw — `url|category|color` per
record, records joined with `|||` — and the single percent-encoding is
applied to the joined string as a whole, so splitting only recovers the
fields of records in which no field contains a `|`. -/
theorem fields_recoverable_without_pipe (uid ts : Nat)
    (url category color : String) (hu : noPipe url.data = true)
    (hc : noPipe category.data = true) (hd : noPipe color.data = true) :
    splitPipe (uploadRecord ⟨uid, url, some category, some color, ts⟩).data
      = [url.data, category.data, color.data] := by
  have hdata : (uploadRecord ⟨uid, url, some category, some color, ts⟩).data
      = url.data ++ '|' :: (category.data ++ '|' :: color.data) := by
    simp [uploadRecord, String.data_append]
  rw [hdata, splitPipe_append_pipe _ _ hu, splitPipe_append_pipe _ _ hc,
    splitPipe_noPipe _ hd]

/-- Claim C6 witness: the amended recovery statement at a concrete
pipe-free record. -/
theorem fields_recoverable_without_pipe_witness :
    noPipe "http://a".data = true ∧
    splitPipe (uploadRecord ⟨1, "http://a", some "News", some "blue",
        0⟩).data
      = ["http://a".data, "News".data, "blue".data] :=
  ⟨by decide, fields_recoverable_without_pipe 1 0 "http://a" "News" "blue"
    (by decide) (by decide) (by decide)⟩

/-! ## Claim C10 — a color press without pending data is a silent no-op -/

/-- Claim C10: when the stored pending category name or pending URL is
missing (Python-falsy) — in particular after `/categoryadd`, which never
records a `current_url` — a `color` button press changes nothing: stores
and session are untouched and no reply is sent.  At that point the
category-add mode flag is already clear, since `handle_message` always
leaves it cleared. -/
theorem color_without_pending_noop (uid : Nat) (payload : String) (ts : Nat)
    (dbOk : Bool) (ctx : Ctx) (db : Db) (rest : List String)
    (hp : splitBar payload = "color" :: rest)
    (hmiss : (truthy ctx.new_category && truthy ctx.current_url) = false) :
    handle_callback uid payload ts dbOk ctx db
      = (ctx, db, Directive.silent) ∧
    (∀ ctx2 : Ctx, (category_add ctx2).1.current_url = ctx2.current_url) ∧
    (∀ (uid2 : Nat) (text : String) (ts2 : Nat) (ok : Bool) (ctx2 : Ctx)
      (db2 : Db),
      ((handle_message uid2 text ts2 ok ctx2 db2).1).category_add_mode
        = false) := by
  refine ⟨?_, fun ctx2 => rfl, fun uid2 text ts2 ok ctx2 db2 => ?_⟩
  · unfold handle_callback
    rw [hp]
    cases rest with
    | nil => rfl
    | cons c cs => simp only [hmiss, Bool.false_eq_true, if_false]
  · by_cases h : ctx2.category_add_mode <;> simp [handle_message, h]

/-- Claim C10 witness: after `/categoryadd` and a name, `current_url` is
absent; the color press is a silent no-op. -/
theorem color_without_pending_noop_witness :
    handle_callback 1 "color|red" 7 true
        ⟨false, none, some "Recipes", none⟩ ⟨[], []⟩
      = (⟨false, none, some "Recipes", none⟩, ⟨[], []⟩,
          Directive.silent) :=
  (color_without_pending_noop 1 "color|red" 7 true
    ⟨false, none, some "Recipes", none⟩ ⟨[], []⟩ ["red"] (by decide)
    (by decide)).1
